import Mathlib

/-!
Shallow embedding of the Ark Cutt CLI agent python modules
advanced_text_vectorizer.py and advanced_2d_shape_generator.py.

Modelling conventions: python floats are modelled as rationals; python
dictionaries as association lists with insert-or-overwrite semantics in
insertion order; the five concrete regular expression patterns of
_extract_dimensions are modelled by hand written scanners that follow
python re semantics (leftmost match, greedy quantifiers) for these
patterns; a method call on an attribute that is defined nowhere in the
repository is modelled as a raised AttributeError carrying the attribute
name; try/except blocks are modelled with Except, where a public
operation returns Except.ok with a tagged result dictionary and a raised
exception is Except.error. File output through ezdxf is not modelled;
the geometric content of a document is the list of line segments passed
to msp.add_line, in order.
-/

namespace ArkAgent

/-- Point in the plane with rational coordinates. -/
abbrev Pt : Type := ℚ × ℚ

/-- Line segment given by its start point and its end point. -/
abbrev Seg : Type := Pt × Pt

/-- Glyph table of AdvancedTextVectorizer._create_letter_definitions,
with the scale factor 1.0 multiplied out. The python dict is modelled
as an association list in insertion order. -/
def letterTable : List (Char × List Seg) := [
  ('A', [((0, 0), (5, 100)), ((5, 100), (10, 0)), ((2.5, 50), (7.5, 50))]),
  ('R', [((0, 0), (0, 100)), ((0, 100), (6, 100)), ((6, 100), (8, 90)),
         ((8, 90), (8, 60)), ((8, 60), (6, 50)), ((6, 50), (0, 50)), ((6, 50), (10, 0))]),
  ('K', [((0, 0), (0, 100)), ((0, 50), (8, 100)), ((0, 50), (8, 0))]),
  ('C', [((8, 20), (6, 0)), ((6, 0), (2, 0)), ((2, 0), (0, 20)), ((0, 20), (0, 80)),
         ((0, 80), (2, 100)), ((2, 100), (6, 100)), ((6, 100), (8, 80))]),
  ('U', [((0, 100), (0, 20)), ((0, 20), (2, 0)), ((2, 0), (6, 0)),
         ((6, 0), (8, 20)), ((8, 20), (8, 100))]),
  ('T', [((0, 100), (10, 100)), ((5, 100), (5, 0))]),
  ('I', [((2, 0), (8, 0)), ((5, 0), (5, 100)), ((2, 100), (8, 100)),
         ((8, 110), (12, 110))]),
  ('O', [((2, 0), (6, 0)), ((6, 0), (8, 20)), ((8, 20), (8, 80)), ((8, 80), (6, 100)),
         ((6, 100), (2, 100)), ((2, 100), (0, 80)), ((0, 80), (0, 20)), ((0, 20), (2, 0))]),
  ('N', [((0, 0), (0, 100)), ((0, 100), (8, 0)), ((8, 0), (8, 100))]),
  ('E', [((0, 0), (0, 100)), ((0, 100), (8, 100)), ((0, 50), (6, 50)), ((0, 0), (8, 0))]),
  ('L', [((0, 100), (0, 0)), ((0, 0), (8, 0))]),
  ('S', [((8, 80), (6, 100)), ((6, 100), (2, 100)), ((2, 100), (0, 80)), ((0, 80), (0, 60)),
         ((0, 60), (2, 50)), ((2, 50), (6, 50)), ((6, 50), (8, 40)), ((8, 40), (8, 20)),
         ((8, 20), (6, 0)), ((6, 0), (2, 0)), ((2, 0), (0, 20))]),
  ('P', [((0, 0), (0, 100)), ((0, 100), (6, 100)), ((6, 100), (8, 90)),
         ((8, 90), (8, 60)), ((8, 60), (6, 50)), ((6, 50), (0, 50))]),
  (' ', [])]

/-- Dict access, as in the membership test `char in self.letter_definitions`
and the read `self.letter_definitions[char]`. -/
def letter_definitions (c : Char) : Option (List Seg) := letterTable.lookup c

/-- Lines emitted for one character of the text at the given running
cursor x, baseline y and scale factor, following the inner loop of
vectorize_text. A character without a table entry emits nothing. The
python guard `len(path) >= 2` always holds since every table entry is a
two point segment. -/
def charLines (c : Char) (current_x pos_y scale_factor : ℚ) : List Seg :=
  match letter_definitions c with
  | some paths =>
      paths.map (fun p =>
        ((current_x + p.1.1 * scale_factor, pos_y + p.1.2 * scale_factor),
         (current_x + p.2.1 * scale_factor, pos_y + p.2.2 * scale_factor)))
  | none => []

/-- Character loop of vectorize_text: returns the emitted segments in
order together with the final value of current_x. The cursor advances by
letter_spacing after every character, with or without a table entry. -/
def vecGo (cs : List Char) (current_x pos_y scale_factor letter_spacing : ℚ) :
    List Seg × ℚ :=
  match cs with
  | [] => ([], current_x)
  | c :: rest =>
      let here := charLines c current_x pos_y scale_factor
      let tail := vecGo rest (current_x + letter_spacing) pos_y scale_factor letter_spacing
      (here ++ tail.1, tail.2)

/-- Result dictionary of a successful vectorize_text call; the fields
mirror the text_info part of the returned dict, and lines records the
segments passed to msp.add_line. -/
structure VecResult where
  success : Bool
  lines : List Seg
  position : Pt
  width : ℚ
  height : ℚ
  layer : String
deriving DecidableEq

/-- Python exceptions that the modelled code can raise. The only raise
the translated code can actually perform is an attribute lookup on a
method name that is defined nowhere in the repository. -/
inductive PyExc where
  | attributeError (attr : String)
deriving DecidableEq

/-- Body of AdvancedTextVectorizer.vectorize_text inside its try block.
The translated body is total: the drawing and saving calls of ezdxf are
not modelled and the remaining computation cannot raise. -/
def vectorize_text_body (text : String) (font_size : ℚ) (layer_name : String) :
    VecResult :=
  let letter_width := font_size * 0.6
  let letter_spacing := font_size * 0.8
  let text_width := (text.data.length : ℚ) * letter_spacing - (letter_spacing - letter_width)
  let position : Pt := (1000 - text_width / 2, 1000 - font_size / 2)
  let scale_factor := font_size / 100
  let run := vecGo (text.data.map Char.toUpper) position.1 position.2 scale_factor letter_spacing
  { success := true, lines := run.1, position := position,
    width := text_width, height := font_size, layer := layer_name }

/-- AdvancedTextVectorizer.vectorize_text: the whole body sits inside
try/except, so the operation returns a tagged result and never lets an
exception escape. -/
def vectorize_text (text : String) (font_size : ℚ) (layer_name : String) :
    Except PyExc VecResult :=
  Except.ok (vectorize_text_body text font_size layer_name)

/-! Shape generator: advanced_2d_shape_generator.py -/

/-- Lowercasing of a python string, as in description.lower() and
text.lower(), modelled per character for the ASCII range. -/
def lowerChars (s : String) : List Char := s.data.map Char.toLower

/-- Literal match test at the head of a character list. -/
def litAt (needle haystack : List Char) : Bool :=
  match needle, haystack with
  | [], _ => true
  | _ :: _, [] => false
  | a :: as, b :: bs => a == b && litAt as bs

/-- Substring containment, as in the python expression
`keyword in description_lower`. -/
def containsSub (needle : List Char) (haystack : List Char) : Bool :=
  match haystack with
  | [] => needle.isEmpty
  | _ :: tl => litAt needle haystack || containsSub needle tl

/-- Literal match at the head of a character list, returning the rest. -/
def dropLit (needle haystack : List Char) : Option (List Char) :=
  match needle, haystack with
  | [], rest => some rest
  | _ :: _, [] => none
  | a :: as, b :: bs => if a == b then dropLit as bs else none

/-- Python regex class \s over the ASCII range. -/
def isSpaceChar (c : Char) : Bool :=
  c == ' ' || c == '\t' || c == '\n' || c == '\r' || c == '\x0b' || c == '\x0c'

/-- Greedy \s* : drop leading whitespace. -/
def spaceDrop (cs : List Char) : List Char :=
  match cs with
  | [] => []
  | c :: rest => if isSpaceChar c then spaceDrop rest else cs

/-- Greedy \d* : split leading digits from the rest. -/
def digitSpan (cs : List Char) : List Char × List Char :=
  match cs with
  | [] => ([], [])
  | c :: rest =>
      if c.isDigit then
        let t := digitSpan rest
        (c :: t.1, t.2)
      else ([], cs)

/-- Capture of the regex group (\d+(?:\.\d+)?) anchored at the head:
one or more digits, then optionally a dot followed by one or more
digits; greedy, as in python re. Returns the captured characters and
the remaining input, or none when no digit is present. -/
def numTok (cs : List Char) : Option (List Char × List Char) :=
  let ds := digitSpan cs
  if ds.1.isEmpty then none
  else
    match ds.2 with
    | '.' :: r2 =>
        let fs := digitSpan r2
        if fs.1.isEmpty then some (ds.1, ds.2)
        else some (ds.1 ++ '.' :: fs.1, fs.2)
    | _ => some (ds.1, ds.2)

/-- Anchored match of the paired dimension pattern
(\d+(?:\.\d+)?)\s*x\s*(\d+(?:\.\d+)?)\s*(?:mm|cm|m)? returning the two
captured groups. The trailing optional unit does not influence the
captures. -/
def matchNxMAt (cs : List Char) : Option (List Char × List Char) :=
  match numTok cs with
  | none => none
  | some g1 =>
      match spaceDrop g1.2 with
      | 'x' :: r3 =>
          match numTok (spaceDrop r3) with
          | none => none
          | some g2 => some (g1.1, g2.1)
      | _ => none

/-- Anchored match of a keyword dimension pattern such as
width:?\s*(\d+(?:\.\d+)?), returning the captured number group. -/
def matchKeyNumAt (kw : List Char) (cs : List Char) : Option (List Char) :=
  match dropLit kw cs with
  | none => none
  | some r1 =>
      let r2 := match r1 with
                | ':' :: r => r
                | _ => r1
      match numTok (spaceDrop r2) with
      | none => none
      | some g => some g.1

/-- Leftmost match scan of python re: try the anchored matcher at every
position from the left and return the first success. Only the first
match matters to _extract_dimensions, which reads matches[0]. -/
def findFirst {α : Type} (m : List Char → Option α) (cs : List Char) : Option α :=
  match cs with
  | [] => m []
  | _ :: tl =>
      match m cs with
      | some r => some r
      | none => findFirst m tl

/-- Value of a digit string as a natural number. -/
def digitsToNat (ds : List Char) : Nat :=
  ds.foldl (fun acc c => acc * 10 + (c.toNat - ('0').toNat)) 0

/-- Split a captured number at its dot, if any. -/
def splitAtDot (cs : List Char) : List Char × List Char :=
  match cs with
  | [] => ([], [])
  | c :: r =>
      if c = '.' then ([], r)
      else
        let t := splitAtDot r
        (c :: t.1, t.2)

/-- Python float() applied to a captured number group: integer part plus
fractional part. Exact for the decimal strings the patterns capture. -/
def pyFloat (cs : List Char) : ℚ :=
  ((digitsToNat (splitAtDot cs).1 : ℚ)) +
    ((digitsToNat (splitAtDot cs).2 : ℚ)) / (10 : ℚ) ^ (splitAtDot cs).2.length

/-- Dimensions dictionary: association list with python dict semantics. -/
abbrev Dims : Type := List (String × ℚ)

/-- Python dict assignment d[k] = v : overwrite in place or append. -/
def dictInsert (k : String) (v : ℚ) (d : Dims) : Dims :=
  match d with
  | [] => [(k, v)]
  | q :: rest => if q.1 = k then (k, v) :: rest else q :: dictInsert k v rest

/-- First loop iteration of _extract_dimensions, for the paired pattern:
on a match, width is assigned from group one and height from group two
of the first match. -/
def dim_step_nxm (t : List Char) (d : Dims) : Dims :=
  match findFirst matchNxMAt t with
  | some g => dictInsert ("height") (pyFloat g.2) (dictInsert ("width") (pyFloat g.1) d)
  | none => d

/-- One loop iteration of _extract_dimensions for a keyword pattern
kw:?\s*(\d+(?:\.\d+)?) ; the dictionary key equals the keyword. -/
def dim_step_kw (kw : String) (t : List Char) (d : Dims) : Dims :=
  match findFirst (matchKeyNumAt kw.data) t with
  | some g => dictInsert kw (pyFloat g) d
  | none => d

/-- Advanced2DShapeGenerator._extract_dimensions: the loop over the five
patterns unrolled in source order; later assignments overwrite earlier
ones for the same key. -/
def extract_dimensions (text : String) : Dims :=
  let t := lowerChars text
  dim_step_kw ("diameter") t
    (dim_step_kw ("radius") t
      (dim_step_kw ("height") t
        (dim_step_kw ("width") t
          (dim_step_nxm t []))))

/-- Category keyword table of _initialize_shape_patterns, in insertion
order. -/
def shape_patterns : List (String × List String) := [
  ("organic", ["apple", "leaf", "flower", "organic", "curved", "smooth"]),
  ("mechanical", ["gear", "cog", "wheel", "mechanical", "technical", "precision"]),
  ("architectural", ["house", "building", "room", "floor", "plan", "architectural"]),
  ("decorative", ["mandala", "pattern", "ornament", "decorative", "artistic"]),
  ("geometric", ["polygon", "triangle", "hexagon", "geometric", "regular"])]

/-- Category selection loop of interpret_shape_request: the first
category whose keyword list has a substring hit wins; the default is
geometric. -/
def categoryOf (description_lower : List Char) : String :=
  match shape_patterns.find? (fun p => p.2.any (fun kw => containsSub kw.data description_lower)) with
  | some p => p.1
  | none => "geometric"

/-- Shape type table of _identify_shape_type, in insertion order. The
geometric category has no entry. -/
def shape_types : List (String × List (String × List String)) := [
  ("organic", [("apple", ["apple", "fruit"]), ("leaf", ["leaf", "foliage"]),
               ("flower", ["flower", "petal", "bloom"])]),
  ("mechanical", [("gear", ["gear", "cog", "tooth", "wheel"]), ("bearing", ["bearing", "ring"]),
                  ("bracket", ["bracket", "mount"])]),
  ("architectural", [("floorplan", ["floor", "room", "plan", "house"]),
                     ("facade", ["facade", "front", "elevation"]),
                     ("section", ["section", "cross-section"])]),
  ("decorative", [("mandala", ["mandala", "circular", "radial"]),
                  ("spiral", ["spiral", "helix", "coil"]),
                  ("pattern", ["pattern", "repeat", "motif"])])]

/-- Advanced2DShapeGenerator._identify_shape_type: first shape of the
category whose keyword list has a substring hit; default custom, also
when the category has no table entry. -/
def identify_shape_type (text : List Char) (category : String) : String :=
  match shape_types.lookup category with
  | some tbl =>
      match tbl.find? (fun s => s.2.any (fun kw => containsSub kw.data text)) with
      | some s => s.1
      | none => "custom"
  | none => "custom"

/-- Style dictionary built by _extract_style_modifiers. -/
structure Style where
  smoothness : String
  complexity : String
deriving DecidableEq

/-- Advanced2DShapeGenerator._extract_style_modifiers. -/
def extract_style_modifiers (text : List Char) : Style :=
  let smoothness :=
    if (["smooth", "curved", "organic"] : List String).any (fun w => containsSub w.data text) then "high"
    else if (["sharp", "angular", "precise"] : List String).any (fun w => containsSub w.data text) then "low"
    else "medium"
  let complexity :=
    if (["detailed", "complex", "intricate"] : List String).any (fun w => containsSub w.data text) then "high"
    else if (["simple", "basic", "minimal"] : List String).any (fun w => containsSub w.data text) then "low"
    else "medium"
  { smoothness := smoothness, complexity := complexity }

/-- Interpretation dictionary returned by interpret_shape_request. -/
structure Interpretation where
  category : String
  type : String
  dimensions : Dims
  style : Style
  description : String
deriving DecidableEq

/-- Advanced2DShapeGenerator.interpret_shape_request. -/
def interpret_shape_request (description : String) : Interpretation :=
  let description_lower := lowerChars description
  let dimensions := extract_dimensions description
  let category := categoryOf description_lower
  let shape_type := identify_shape_type description_lower category
  let style := extract_style_modifiers description_lower
  { category := category, type := shape_type, dimensions := dimensions,
    style := style, description := description }

/-- Metadata dictionaries returned by the three implemented generators
of SpecializedShapes. None of them draws geometry. -/
inductive ShapeMeta where
  | appleLogo (method complexity : String)
  | gear (teethCount pitchDiameter toothHeight : ℚ) (method : String)
  | floorplan (roomType : String) (width height : ℚ) (method : String)
deriving DecidableEq

/-- Python dict .get with default. -/
def dimsGet (d : Dims) (k : String) (default : ℚ) : ℚ :=
  (d.lookup k).getD default

/-- SpecializedShapes.create_apple_logo: descriptive metadata only. -/
def create_apple_logo (_dimensions : Dims) (_style : Style) : ShapeMeta :=
  ShapeMeta.appleLogo ("bezier_curves") ("high")

/-- SpecializedShapes.create_gear: descriptive metadata only. -/
def create_gear (dimensions : Dims) (_style : Style) : ShapeMeta :=
  let radius := dimsGet dimensions ("radius") 50
  let teeth := dimsGet dimensions ("teeth") 12
  ShapeMeta.gear teeth (radius * 2) (radius * 0.2) ("parametric_generation")

/-- SpecializedShapes.create_bedroom_floorplan: descriptive metadata
only. -/
def create_bedroom_floorplan (dimensions : Dims) (_style : Style) : ShapeMeta :=
  let width := dimsGet dimensions ("width") 4000
  let height := dimsGet dimensions ("height") 3000
  ShapeMeta.floorplan ("bedroom") width height ("architectural_standards")

/-- Advanced2DShapeGenerator.generate_shape. The routing follows the
source; every branch that calls a helper method that is defined nowhere
in the repository (_create_leaf_shape, _create_organic_blob,
_create_mechanical_part, _create_architectural_element, _create_mandala,
_create_spiral, _create_decorative_pattern, _create_polygon) raises
AttributeError at the attribute lookup, and generate_shape itself has no
try/except around its body. -/
def generate_shape (i : Interpretation) : Except PyExc ShapeMeta :=
  if i.category = "organic" then
    if i.type = "apple" then Except.ok (create_apple_logo i.dimensions i.style)
    else if i.type = "leaf" then Except.error (PyExc.attributeError ("_create_leaf_shape"))
    else Except.error (PyExc.attributeError ("_create_organic_blob"))
  else if i.category = "mechanical" then
    if i.type = "gear" then Except.ok (create_gear i.dimensions i.style)
    else Except.error (PyExc.attributeError ("_create_mechanical_part"))
  else if i.category = "architectural" then
    if i.type = "floorplan" then Except.ok (create_bedroom_floorplan i.dimensions i.style)
    else Except.error (PyExc.attributeError ("_create_architectural_element"))
  else if i.category = "decorative" then
    if i.type = "mandala" then Except.error (PyExc.attributeError ("_create_mandala"))
    else if i.type = "spiral" then Except.error (PyExc.attributeError ("_create_spiral"))
    else Except.error (PyExc.attributeError ("_create_decorative_pattern"))
  else Except.error (PyExc.attributeError ("_create_polygon"))

/-- Result of save_document. A document always exists at this call site
because generate_shape creates one before routing; the ezdxf save is not
modelled and succeeds. -/
structure SaveResult where
  success : Bool
  message : String
deriving DecidableEq

/-- Advanced2DShapeGenerator.save_document at the call site inside
process_request. -/
def save_document : SaveResult :=
  { success := true, message := "Advanced shape generated successfully" }

/-- Combined result dictionary of SmartShapeAgent.process_request. -/
structure AgentResult where
  success : Bool
  message : String
deriving DecidableEq

/-- Message of str(e) for the modelled exceptions. -/
def pyExcStr (e : PyExc) : String :=
  match e with
  | PyExc.attributeError attr =>
      "Advanced2DShapeGenerator object has no attribute " ++ attr

/-- Body of SmartShapeAgent.process_request inside its try block:
interpret, generate, save, combine. A raise inside generate_shape
escapes the body. -/
def process_request_body (description : String) : Except PyExc AgentResult :=
  let interpretation := interpret_shape_request description
  match generate_shape interpretation with
  | Except.error e => Except.error e
  | Except.ok _ =>
      Except.ok { success := save_document.success, message := save_document.message }

/-- Interpretation dictionary with the geometric default category and
the custom fallback type, as interpret_shape_request produces it for a
request with no matching keywords; used as a concrete test vector. -/
def geometric_custom : Interpretation :=
  { category := "geometric", type := "custom", dimensions := [],
    style := { smoothness := "medium", complexity := "medium" }, description := "" }

/-- SmartShapeAgent.process_request: the except branch converts any
exception from the body into a tagged failure dictionary, so the
operation itself never lets an exception escape. -/
def process_request (description : String) : Except PyExc AgentResult :=
  match process_request_body description with
  | Except.ok r => Except.ok r
  | Except.error e =>
      Except.ok { success := false,
                  message := "Error processing shape request: " ++ pyExcStr e }

/-! Helper lemmas -/

/-- Value of pyFloat on a capture without a dot. -/
theorem pyFloat_digits (cs : List Char) (n : ℕ) (h1 : splitAtDot cs = (cs, []))
    (h2 : digitsToNat cs = n) : pyFloat cs = n := by
  simp [pyFloat, h1, h2, show digitsToNat [] = 0 from rfl]

/-- Final cursor of the character loop: the cursor advances by exactly
letter_spacing per character, supported or not. -/
theorem vecGo_cursor (cs : List Char) (cx py sf sp : ℚ) :
    (vecGo cs cx py sf sp).2 = cx + cs.length * sp := by
  induction cs generalizing cx with
  | nil => simp [vecGo]
  | cons c rest ih =>
      simp only [vecGo, ih (cx + sp), List.length_cons]
      push_cast
      ring

/-- Decomposition of the emitted segments over a split of the text. -/
theorem vecGo_append (cs ds : List Char) (cx py sf sp : ℚ) :
    (vecGo (cs ++ ds) cx py sf sp).1
      = (vecGo cs cx py sf sp).1 ++ (vecGo ds (cx + cs.length * sp) py sf sp).1 := by
  induction cs generalizing cx with
  | nil => simp [vecGo]
  | cons c rest ih =>
      have h1 : (vecGo ((c :: rest) ++ ds) cx py sf sp).1
          = charLines c cx py sf ++ (vecGo (rest ++ ds) (cx + sp) py sf sp).1 := rfl
      have h2 : (vecGo (c :: rest) cx py sf sp).1
          = charLines c cx py sf ++ (vecGo rest (cx + sp) py sf sp).1 := rfl
      have harg : cx + sp + (rest.length : ℚ) * sp = cx + (((c :: rest).length : ℕ) : ℚ) * sp := by
        push_cast [List.length_cons]
        ring
      rw [h1, ih (cx + sp), h2, List.append_assoc, harg]

/-- Membership in a dict after an assignment. -/
theorem mem_dictInsert {k : String} {v : ℚ} {d : Dims} {p : String × ℚ}
    (hp : p ∈ dictInsert k v d) : p = (k, v) ∨ p ∈ d := by
  induction d with
  | nil => simpa [dictInsert] using hp
  | cons q rest ih =>
      by_cases h : q.1 = k
      · simp only [dictInsert, if_pos h, List.mem_cons] at hp
        rcases hp with h1 | h1
        · exact Or.inl h1
        · exact Or.inr (List.mem_cons_of_mem _ h1)
      · simp only [dictInsert, if_neg h, List.mem_cons] at hp
        rcases hp with h1 | h1
        · exact Or.inr (h1 ▸ List.mem_cons_self _ _)
        · rcases ih h1 with h2 | h2
          · exact Or.inl h2
          · exact Or.inr (List.mem_cons_of_mem _ h2)

/-- Reading back the key just assigned. -/
theorem lookup_dictInsert_self (k : String) (v : ℚ) (d : Dims) :
    (dictInsert k v d).lookup k = some v := by
  induction d with
  | nil => simp [dictInsert, List.lookup]
  | cons q rest ih =>
      by_cases h : q.1 = k
      · simp [dictInsert, if_pos h, List.lookup]
      · simp only [dictInsert, if_neg h, List.lookup]
        have hb : (k == q.1) = false := by
          simp [Ne.symm h]
        simp [hb, ih]

/-- Assigning one key leaves the others unchanged. -/
theorem lookup_dictInsert_ne {k k2 : String} (h : k2 ≠ k) (v : ℚ) (d : Dims) :
    (dictInsert k v d).lookup k2 = d.lookup k2 := by
  have hb : (k2 == k) = false := by simp [h]
  induction d with
  | nil => simp [dictInsert, List.lookup, hb]
  | cons q rest ih =>
      by_cases hq : q.1 = k
      · simp only [dictInsert, if_pos hq, List.lookup]
        have hb2 : (k2 == q.1) = false := by simp [hq ▸ h]
        simp [hb, hb2]
      · simp only [dictInsert, if_neg hq, List.lookup]
        cases hc : (k2 == q.1) with
        | true => rfl
        | false => simpa [hc] using ih

/-- Keys of an association list are exactly the keys lookup finds. -/
theorem lookup_isSome_iff {β : Type} (l : List (Char × β)) (c : Char) :
    ((l.lookup c).isSome = true) ↔ c ∈ l.map Prod.fst := by
  induction l with
  | nil => simp [List.lookup]
  | cons q rest ih =>
      by_cases h : c = q.1
      · simp [List.lookup, h]
      · have hb : (c == q.1) = false := by simp [h]
        simp [List.lookup, hb, ih, h]

/-- A keyword step for a different key does not change a lookup. -/
theorem lookup_dim_step_kw_ne {kw k : String} (h : k ≠ kw) (t : List Char) (d : Dims) :
    (dim_step_kw kw t d).lookup k = d.lookup k := by
  cases hf : findFirst (matchKeyNumAt kw.data) t with
  | none => simp only [dim_step_kw, hf]
  | some g =>
      simp only [dim_step_kw, hf]
      exact lookup_dictInsert_ne h _ _

/-- A keyword step only ever contributes its own key. -/
theorem mem_dim_step_kw {kw : String} {t : List Char} {d : Dims} {p : String × ℚ}
    (hp : p ∈ dim_step_kw kw t d) : p.1 = kw ∨ p ∈ d := by
  cases hf : findFirst (matchKeyNumAt kw.data) t with
  | none =>
      simp only [dim_step_kw, hf] at hp
      exact Or.inr hp
  | some g =>
      simp only [dim_step_kw, hf] at hp
      rcases mem_dictInsert hp with h | h
      · exact Or.inl (by rw [h])
      · exact Or.inr h

/-- The paired step only ever contributes the width and height keys. -/
theorem mem_dim_step_nxm {t : List Char} {d : Dims} {p : String × ℚ}
    (hp : p ∈ dim_step_nxm t d) : p.1 = "width" ∨ p.1 = "height" ∨ p ∈ d := by
  cases hf : findFirst matchNxMAt t with
  | none =>
      simp only [dim_step_nxm, hf] at hp
      exact Or.inr (Or.inr hp)
  | some g =>
      simp only [dim_step_nxm, hf] at hp
      rcases mem_dictInsert hp with h | h
      · exact Or.inr (Or.inl (by rw [h]))
      · rcases mem_dictInsert h with h2 | h2
        · exact Or.inl (by rw [h2])
        · exact Or.inr (Or.inr h2)

/-- Unfolding of the five pattern iterations in source order. -/
theorem extract_unfold (text : String) :
    extract_dimensions text
      = dim_step_kw ("diameter") (lowerChars text)
          (dim_step_kw ("radius") (lowerChars text)
            (dim_step_kw ("height") (lowerChars text)
              (dim_step_kw ("width") (lowerChars text)
                (dim_step_nxm (lowerChars text) [])))) := rfl

/-- A keyword step with no match leaves the dictionary unchanged. -/
theorem dim_step_kw_none {kw : String} {t : List Char}
    (h : findFirst (matchKeyNumAt kw.data) t = none) (d : Dims) :
    dim_step_kw kw t d = d := by
  simp only [dim_step_kw, h]

/-- A keyword step with a first match assigns its key from that match. -/
theorem dim_step_kw_some {kw : String} {t : List Char} {g : List Char}
    (h : findFirst (matchKeyNumAt kw.data) t = some g) (d : Dims) :
    dim_step_kw kw t d = dictInsert kw (pyFloat g) d := by
  simp only [dim_step_kw, h]

/-- The paired step with no match leaves the dictionary unchanged. -/
theorem dim_step_nxm_none {t : List Char}
    (h : findFirst matchNxMAt t = none) (d : Dims) :
    dim_step_nxm t d = d := by
  simp only [dim_step_nxm, h]

/-- The paired step with a first match assigns width from group one and
height from group two of that match. -/
theorem dim_step_nxm_some {t : List Char} {g : List Char × List Char}
    (h : findFirst matchNxMAt t = some g) (d : Dims) :
    dim_step_nxm t d = dictInsert ("height") (pyFloat g.2) (dictInsert ("width") (pyFloat g.1) d) := by
  simp only [dim_step_nxm, h]

/-- Segments drawn for the single character text A at font size 100. -/
theorem vec_lines_A : (vectorize_text_body ("A") 100 ("ENGRAVE")).lines
    = [((970, 950), (975, 1050)), ((975, 1050), (980, 950)),
       ((972.5, 1000), (977.5, 1000))] := by
  have hdata : ("A").data.map Char.toUpper = ['A'] := rfl
  have hlen : ((("A").data.length : ℕ) : ℚ) = 1 := by
    norm_num [show ("A").data.length = 1 from rfl]
  simp only [vectorize_text_body, hdata, hlen, vecGo, charLines,
    show ('A').toUpper = 'A' from rfl,
    show letter_definitions 'A'
        = some [((0, 0), (5, 100)), ((5, 100), (10, 0)), ((2.5, 50), (7.5, 50))] from rfl,
    List.map_cons, List.map_nil, List.append_nil]
  norm_num

/-- Segments drawn for the single character text I at font size 100. -/
theorem vec_lines_I : (vectorize_text_body ("I") 100 ("TEXT")).lines
    = [((972, 950), (978, 950)), ((975, 950), (975, 1050)),
       ((972, 1050), (978, 1050)), ((978, 1060), (982, 1060))] := by
  have hdata : ("I").data.map Char.toUpper = ['I'] := rfl
  have hlen : ((("I").data.length : ℕ) : ℚ) = 1 := by
    norm_num [show ("I").data.length = 1 from rfl]
  simp only [vectorize_text_body, hdata, hlen, vecGo, charLines,
    show ('I').toUpper = 'I' from rfl,
    show letter_definitions 'I'
        = some [((2, 0), (8, 0)), ((5, 0), (5, 100)), ((2, 100), (8, 100)),
                ((8, 110), (12, 110))] from rfl,
    List.map_cons, List.map_nil, List.append_nil]
  norm_num

/-- Baseline y of the single character text I at font size 100. -/
theorem vec_pos2_I : (vectorize_text_body ("I") 100 ("TEXT")).position.2 = 950 := by
  show (1000 - (100 : ℚ) / 2) = 950
  norm_num

/-! Claim theorems -/

/-- C1: the request "decorative ornament" is interpreted as a decorative
custom shape, which routes to the unimplemented placeholder branch of
generate_shape; there the code raises AttributeError instead of
returning descriptive metadata, because _create_decorative_pattern is
defined nowhere in the repository. The same happens at the organic leaf
branch and at the generic architectural branch. -/
theorem C1_placeholder_branch_raises :
    generate_shape (interpret_shape_request ("decorative ornament"))
      = Except.error (PyExc.attributeError ("_create_decorative_pattern")) ∧
    generate_shape (interpret_shape_request ("organic leaf"))
      = Except.error (PyExc.attributeError ("_create_leaf_shape")) ∧
    generate_shape (interpret_shape_request ("architectural facade"))
      = Except.error (PyExc.attributeError ("_create_architectural_element")) :=
  ⟨rfl, rfl, rfl⟩

/-- C2 counterexample: generate_shape lets an exception escape to its
caller: on the interpretation of "mechanical bracket" it raises
AttributeError for the undefined helper _create_mechanical_part instead
of returning a tagged result, so not all three public operations catch
every internal failure. -/
theorem C2_counterexample :
    generate_shape (interpret_shape_request ("mechanical bracket"))
      = Except.error (PyExc.attributeError ("_create_mechanical_part")) := rfl

/-- C2 amended: vectorize_text and process_request catch every internal
failure and always return a tagged result; generate_shape has no such
boundary and raises AttributeError on inputs that route to any of its
undefined helper methods, for example the geometric default branch. -/
theorem C2_amended_boundaries :
    (∀ description : String, ∃ r, process_request description = Except.ok r) ∧
    (∀ (text : String) (font_size : ℚ) (layer_name : String),
        ∃ r, vectorize_text text font_size layer_name = Except.ok r) ∧
    generate_shape geometric_custom
      = Except.error (PyExc.attributeError ("_create_polygon")) := by
  refine ⟨?_, ?_, rfl⟩
  · intro description
    cases h : process_request_body description with
    | ok r => exact ⟨r, by simp [process_request, h]⟩
    | error e =>
        exact ⟨{ success := false, message := "Error processing shape request: " ++ pyExcStr e },
          by simp [process_request, h]⟩
  · intro text font_size layer_name
    exact ⟨_, rfl⟩

/-- C3 counterexample: the glyph table does not have sixteen entries and
the character P, which is outside the claimed character set, does have
an entry. -/
theorem C3_counterexample :
    letterTable.length ≠ 16 ∧ letter_definitions ('P') ≠ none := by
  decide

/-- C3 amended: the glyph table is fixed at fourteen entries, exactly
the characters A, R, K, C, U, T, I, O, N, E, L, S, P and space; every
other character has no entry and contributes no segments. -/
theorem C3_amended_table :
    letterTable.length = 14 ∧
    (∀ c : Char, (letter_definitions c).isSome = true ↔
        c ∈ (['A', 'R', 'K', 'C', 'U', 'T', 'I', 'O', 'N', 'E', 'L', 'S', 'P', ' '] : List Char)) ∧
    (∀ (c : Char) (cx py sf : ℚ), letter_definitions c = none → charLines c cx py sf = []) := by
  refine ⟨rfl, ?_, ?_⟩
  · intro c
    have h := lookup_isSome_iff letterTable c
    rw [show letterTable.map Prod.fst
        = (['A', 'R', 'K', 'C', 'U', 'T', 'I', 'O', 'N', 'E', 'L', 'S', 'P', ' '] : List Char) from rfl] at h
    exact h
  · intro c cx py sf h
    simp [charLines, h]

/-- C3 witness: the unsupported character z is skipped, and P is in the
key set. -/
theorem C3_witness :
    charLines 'z' 970 950 1 = [] ∧
    'P' ∈ (['A', 'R', 'K', 'C', 'U', 'T', 'I', 'O', 'N', 'E', 'L', 'S', 'P', ' '] : List Char) :=
  ⟨C3_amended_table.2.2 'z' 970 950 1 (by decide),
   (C3_amended_table.2.1 'P').mp (by decide)⟩

/-- C4 counterexample: on the empty description the interpreted type is
the string custom, which is the generic none-match default of the
keyword table; there is no sides-count heuristic in type identification,
since the shape type table has no entry at all for the geometric
category. -/
theorem C4_counterexample :
    (interpret_shape_request ("")).type = "custom" ∧
    identify_shape_type [] ("geometric") = "custom" ∧
    shape_types.lookup ("geometric") = none := by
  decide

/-- C4 amended: interpret_shape_request applied to the empty description
returns category geometric, type custom (the generic fallback of
_identify_shape_type, which has no entry for the geometric category; the
sides-count default of six is only used later inside
_generate_geometric_shape), an empty dimensions mapping, and style with
smoothness medium and complexity medium. -/
theorem C4_amended_empty_interpretation :
    interpret_shape_request ("")
      = { category := "geometric", type := "custom", dimensions := [],
          style := { smoothness := "medium", complexity := "medium" },
          description := "" } := by
  decide

/-- C5: for every supported character the vectorizer emits exactly the
glyph segments, scaled by the scale factor and translated by the running
cursor x and the corner y; the character at position i of the text is
drawn at cursor start plus i letter spacings; and concretely the single
character text A at font size 100 on layer ENGRAVE produces exactly 3
segments, all with x inside the cursor to cursor plus ten band and y
inside the zero to one hundred band, scaled and translated. -/
theorem C5_vectorize_per_character :
    (∀ (c : Char) (segs : List Seg) (cx py sf : ℚ),
        letter_definitions c = some segs →
        charLines c cx py sf = segs.map (fun p =>
          ((cx + p.1.1 * sf, py + p.1.2 * sf), (cx + p.2.1 * sf, py + p.2.2 * sf)))) ∧
    (∀ (pre post : List Char) (c : Char) (cx py sf sp : ℚ),
        (vecGo (pre ++ c :: post) cx py sf sp).1
          = (vecGo pre cx py sf sp).1
            ++ charLines c (cx + pre.length * sp) py sf
            ++ (vecGo post (cx + pre.length * sp + sp) py sf sp).1) ∧
    ((vectorize_text_body ("A") 100 ("ENGRAVE")).lines.length = 3 ∧
      (vectorize_text_body ("A") 100 ("ENGRAVE")).position.1 = 970 ∧
      ∀ seg ∈ (vectorize_text_body ("A") 100 ("ENGRAVE")).lines,
        970 ≤ seg.1.1 ∧ seg.1.1 ≤ 980 ∧ 970 ≤ seg.2.1 ∧ seg.2.1 ≤ 980 ∧
        950 ≤ seg.1.2 ∧ seg.1.2 ≤ 1050 ∧ 950 ≤ seg.2.2 ∧ seg.2.2 ≤ 1050) := by
  refine ⟨?_, ?_, ?_, ?_, ?_⟩
  · intro c segs cx py sf h
    simp [charLines, h]
  · intro pre post c cx py sf sp
    rw [vecGo_append pre (c :: post) cx py sf sp]
    have h2 : (vecGo (c :: post) (cx + pre.length * sp) py sf sp).1
        = charLines c (cx + pre.length * sp) py sf
          ++ (vecGo post (cx + pre.length * sp + sp) py sf sp).1 := rfl
    rw [h2, List.append_assoc]
  · rw [vec_lines_A]
    rfl
  · show (1000 - ((("A").data.length : ℚ) * (100 * 0.8) - (100 * 0.8 - 100 * 0.6)) / 2) = 970
    norm_num [show ("A").data.length = 1 from rfl]
  · intro seg hseg
    rw [vec_lines_A] at hseg
    simp only [List.mem_cons, List.not_mem_nil, or_false] at hseg
    rcases hseg with rfl | rfl | rfl <;> norm_num

/-- C5 witness: the glyph of A, drawn at cursor 970, corner 950 and
scale factor one. -/
theorem C5_witness :
    charLines 'A' 970 950 1
      = ([((0, 0), (5, 100)), ((5, 100), (10, 0)), ((2.5, 50), (7.5, 50))] : List Seg).map
          (fun p => ((970 + p.1.1 * 1, 950 + p.1.2 * 1), (970 + p.2.1 * 1, 950 + p.2.2 * 1))) :=
  C5_vectorize_per_character.1 'A'
    [((0, 0), (5, 100)), ((5, 100), (10, 0)), ((2.5, 50), (7.5, 50))] 970 950 1 rfl

/-- C6: for every text, font size and layer the final cursor of the
character loop is the start corner x plus length of the text times
font size times 0.8, so the cursor advances by exactly font size times
0.8 after each character, also for characters with no glyph entry; the
start corner is the anchor (1000, 1000) minus half the computed text
width in x and half the font size in y, where the text width is
length times letter spacing minus letter spacing minus letter width,
with letter width 0.6 and letter spacing 0.8 times the font size. -/
theorem C6_cursor_and_anchor (text : String) (font_size : ℚ) (layer_name : String) :
    (vecGo (text.data.map Char.toUpper)
        (vectorize_text_body text font_size layer_name).position.1
        (vectorize_text_body text font_size layer_name).position.2
        (font_size / 100) (font_size * 0.8)).2
      = (vectorize_text_body text font_size layer_name).position.1
          + (text.data.length : ℚ) * (font_size * 0.8) ∧
    (vectorize_text_body text font_size layer_name).position
      = (1000 - (vectorize_text_body text font_size layer_name).width / 2,
         1000 - font_size / 2) ∧
    (vectorize_text_body text font_size layer_name).width
      = (text.data.length : ℚ) * (font_size * 0.8) - (font_size * 0.8 - font_size * 0.6) ∧
    (vectorize_text_body text font_size layer_name).lines
      = (vecGo (text.data.map Char.toUpper)
          (vectorize_text_body text font_size layer_name).position.1
          (vectorize_text_body text font_size layer_name).position.2
          (font_size / 100) (font_size * 0.8)).1 := by
  refine ⟨?_, rfl, rfl, rfl⟩
  rw [vecGo_cursor, List.length_map]

/-- C7: vectorizing the single character text I at font size 100 on
layer TEXT emits a segment whose y coordinates sit at the corner plus
110 scaled, above the zero to one hundred body band, while every other
emitted segment stays at or below the corner plus 100 scaled. -/
theorem C7_decorative_mark :
    ∃ seg ∈ (vectorize_text_body ("I") 100 ("TEXT")).lines,
      seg.1.2 = (vectorize_text_body ("I") 100 ("TEXT")).position.2 + 110 * (100 / 100) ∧
      seg.2.2 = (vectorize_text_body ("I") 100 ("TEXT")).position.2 + 110 * (100 / 100) ∧
      ∀ other ∈ (vectorize_text_body ("I") 100 ("TEXT")).lines, other ≠ seg →
        other.1.2 ≤ (vectorize_text_body ("I") 100 ("TEXT")).position.2 + 100 * (100 / 100) ∧
        other.2.2 ≤ (vectorize_text_body ("I") 100 ("TEXT")).position.2 + 100 * (100 / 100) := by
  refine ⟨((978, 1060), (982, 1060)), ?_, ?_, ?_, ?_⟩
  · rw [vec_lines_I]
    simp
  · rw [vec_pos2_I]
    norm_num
  · rw [vec_pos2_I]
    norm_num
  · intro other ho hne
    rw [vec_lines_I] at ho
    rw [vec_pos2_I]
    simp only [List.mem_cons, List.not_mem_nil, or_false] at ho
    rcases ho with rfl | rfl | rfl | rfl
    · norm_num
    · norm_num
    · norm_num
    · exact absurd rfl hne

/-- C8: the request "bedroom floorplan 4x3m" is interpreted as category
architectural, type floorplan, with width 4 and height 3 both populated
from the one paired NxM match, and neutral medium style. -/
theorem C8_floorplan_interpretation :
    interpret_shape_request ("bedroom floorplan 4x3m")
      = { category := "architectural", type := "floorplan",
          dimensions := [(("width"), 4), (("height"), 3)],
          style := { smoothness := "medium", complexity := "medium" },
          description := "bedroom floorplan 4x3m" } := by
  have hd : extract_dimensions ("bedroom floorplan 4x3m")
      = [(("width"), pyFloat ['4']), (("height"), pyFloat ['3'])] := rfl
  have h4 : pyFloat ['4'] = 4 := by
    rw [pyFloat_digits ['4'] 4 rfl rfl]
    norm_num
  have h3 : pyFloat ['3'] = 3 := by
    rw [pyFloat_digits ['3'] 3 rfl rfl]
    norm_num
  rw [show interpret_shape_request ("bedroom floorplan 4x3m")
      = { category := categoryOf (lowerChars ("bedroom floorplan 4x3m")),
          type := identify_shape_type (lowerChars ("bedroom floorplan 4x3m"))
              (categoryOf (lowerChars ("bedroom floorplan 4x3m"))),
          dimensions := extract_dimensions ("bedroom floorplan 4x3m"),
          style := extract_style_modifiers (lowerChars ("bedroom floorplan 4x3m")),
          description := "bedroom floorplan 4x3m" } from rfl,
      hd, h4, h3]
  rfl

/-- C9: every entry of the dimensions mapping produced by
_extract_dimensions has its key among width, height, radius and
diameter; in particular the key teeth is never produced. -/
theorem C9_dimension_keys (text : String) (p : String × ℚ)
    (hp : p ∈ extract_dimensions text) :
    (p.1 = "width" ∨ p.1 = "height" ∨ p.1 = "radius" ∨ p.1 = "diameter") ∧
    p.1 ≠ "teeth" := by
  rw [extract_unfold] at hp
  rcases mem_dim_step_kw hp with h | hp
  · exact ⟨Or.inr (Or.inr (Or.inr h)), by rw [h]; decide⟩
  rcases mem_dim_step_kw hp with h | hp
  · exact ⟨Or.inr (Or.inr (Or.inl h)), by rw [h]; decide⟩
  rcases mem_dim_step_kw hp with h | hp
  · exact ⟨Or.inr (Or.inl h), by rw [h]; decide⟩
  rcases mem_dim_step_kw hp with h | hp
  · exact ⟨Or.inl h, by rw [h]; decide⟩
  rcases mem_dim_step_nxm hp with h | h | hp
  · exact ⟨Or.inl h, by rw [h]; decide⟩
  · exact ⟨Or.inr (Or.inl h), by rw [h]; decide⟩
  · cases hp

/-- C9 witness: the width entry produced for the text 4x3. -/
theorem C9_witness :
    (((("width"), pyFloat ['4']) : String × ℚ).1 = "width" ∨
      ((("width"), pyFloat ['4']) : String × ℚ).1 = "height" ∨
      ((("width"), pyFloat ['4']) : String × ℚ).1 = "radius" ∨
      ((("width"), pyFloat ['4']) : String × ℚ).1 = "diameter") ∧
    ((("width"), pyFloat ['4']) : String × ℚ).1 ≠ "teeth" :=
  C9_dimension_keys ("4x3") (("width"), pyFloat ['4'])
    (by rw [show extract_dimensions ("4x3")
          = [(("width"), pyFloat ['4']), (("height"), pyFloat ['3'])] from rfl]
        exact List.mem_cons_self _ _)

/-- C10: for every input string, each final dimension value is fully
determined by the first (leftmost) match of the last-listed matching
pattern: the final width is the first match of the standalone width
pattern when it matches, else group one of the first paired NxM match;
the final height is the first match of the standalone height pattern
when it matches, else group two of the first paired NxM match (so a
standalone width or height value overwrites the paired value for that
key); the final radius and diameter are the first matches of their own
patterns. No second match of any pattern is ever consulted. -/
theorem C10_first_match_precedence (text : String) :
    (extract_dimensions text).lookup ("width")
      = (match findFirst (matchKeyNumAt ("width").data) (lowerChars text) with
         | some w => some (pyFloat w)
         | none =>
             match findFirst matchNxMAt (lowerChars text) with
             | some g => some (pyFloat g.1)
             | none => none) ∧
    (extract_dimensions text).lookup ("height")
      = (match findFirst (matchKeyNumAt ("height").data) (lowerChars text) with
         | some h => some (pyFloat h)
         | none =>
             match findFirst matchNxMAt (lowerChars text) with
             | some g => some (pyFloat g.2)
             | none => none) ∧
    (extract_dimensions text).lookup ("radius")
      = (match findFirst (matchKeyNumAt ("radius").data) (lowerChars text) with
         | some r => some (pyFloat r)
         | none => none) ∧
    (extract_dimensions text).lookup ("diameter")
      = (match findFirst (matchKeyNumAt ("diameter").data) (lowerChars text) with
         | some dm => some (pyFloat dm)
         | none => none) := by
  refine ⟨?_, ?_, ?_, ?_⟩
  · rw [extract_unfold, lookup_dim_step_kw_ne (by decide), lookup_dim_step_kw_ne (by decide),
        lookup_dim_step_kw_ne (by decide)]
    cases hw : findFirst (matchKeyNumAt ("width").data) (lowerChars text) with
    | some w =>
        rw [dim_step_kw_some hw]
        exact lookup_dictInsert_self _ _ _
    | none =>
        rw [dim_step_kw_none hw]
        cases hn : findFirst matchNxMAt (lowerChars text) with
        | some g =>
            rw [dim_step_nxm_some hn, lookup_dictInsert_ne (by decide)]
            exact lookup_dictInsert_self _ _ _
        | none =>
            rw [dim_step_nxm_none hn]
            rfl
  · rw [extract_unfold, lookup_dim_step_kw_ne (by decide), lookup_dim_step_kw_ne (by decide)]
    cases hh : findFirst (matchKeyNumAt ("height").data) (lowerChars text) with
    | some h =>
        rw [dim_step_kw_some hh]
        exact lookup_dictInsert_self _ _ _
    | none =>
        rw [dim_step_kw_none hh, lookup_dim_step_kw_ne (by decide)]
        cases hn : findFirst matchNxMAt (lowerChars text) with
        | some g =>
            rw [dim_step_nxm_some hn]
            exact lookup_dictInsert_self _ _ _
        | none =>
            rw [dim_step_nxm_none hn]
            rfl
  · rw [extract_unfold, lookup_dim_step_kw_ne (by decide)]
    cases hr : findFirst (matchKeyNumAt ("radius").data) (lowerChars text) with
    | some r =>
        rw [dim_step_kw_some hr]
        exact lookup_dictInsert_self _ _ _
    | none =>
        rw [dim_step_kw_none hr, lookup_dim_step_kw_ne (by decide),
            lookup_dim_step_kw_ne (by decide)]
        cases hn : findFirst matchNxMAt (lowerChars text) with
        | some g =>
            rw [dim_step_nxm_some hn, lookup_dictInsert_ne (by decide),
                lookup_dictInsert_ne (by decide)]
            rfl
        | none =>
            rw [dim_step_nxm_none hn]
            rfl
  · rw [extract_unfold]
    cases hd : findFirst (matchKeyNumAt ("diameter").data) (lowerChars text) with
    | some dm =>
        rw [dim_step_kw_some hd]
        exact lookup_dictInsert_self _ _ _
    | none =>
        rw [dim_step_kw_none hd, lookup_dim_step_kw_ne (by decide),
            lookup_dim_step_kw_ne (by decide), lookup_dim_step_kw_ne (by decide)]
        cases hn : findFirst matchNxMAt (lowerChars text) with
        | some g =>
            rw [dim_step_nxm_some hn, lookup_dictInsert_ne (by decide),
                lookup_dictInsert_ne (by decide)]
            rfl
        | none =>
            rw [dim_step_nxm_none hn]
            rfl

/-- C10 witness: in "4x3 width: 7 width: 9" the paired match sets width
4 and height 3, then the first standalone width match overwrites width
to 7, the later 9 is ignored, and height keeps 3; in "4x3 height: 9"
the standalone height match overwrites height to 9 and width keeps the
paired 4. -/
theorem C10_witness :
    (extract_dimensions ("4x3 width: 7 width: 9")).lookup ("width") = some 7 ∧
    (extract_dimensions ("4x3 width: 7 width: 9")).lookup ("height") = some 3 ∧
    (extract_dimensions ("4x3 height: 9")).lookup ("height") = some 9 ∧
    (extract_dimensions ("4x3 height: 9")).lookup ("width") = some 4 := by
  have h1 := C10_first_match_precedence ("4x3 width: 7 width: 9")
  have h2 := C10_first_match_precedence ("4x3 height: 9")
  have e1 : findFirst (matchKeyNumAt ("width").data) (lowerChars ("4x3 width: 7 width: 9"))
      = some ['7'] := by decide
  have e2 : findFirst (matchKeyNumAt ("height").data) (lowerChars ("4x3 width: 7 width: 9"))
      = none := by decide
  have e3 : findFirst matchNxMAt (lowerChars ("4x3 width: 7 width: 9"))
      = some (['4'], ['3']) := by decide
  have e4 : findFirst (matchKeyNumAt ("height").data) (lowerChars ("4x3 height: 9"))
      = some ['9'] := by decide
  have e5 : findFirst (matchKeyNumAt ("width").data) (lowerChars ("4x3 height: 9"))
      = none := by decide
  have e6 : findFirst matchNxMAt (lowerChars ("4x3 height: 9"))
      = some (['4'], ['3']) := by decide
  have p7 : pyFloat ['7'] = 7 := by
    rw [pyFloat_digits ['7'] 7 rfl rfl]
    norm_num
  have p9 : pyFloat ['9'] = 9 := by
    rw [pyFloat_digits ['9'] 9 rfl rfl]
    norm_num
  have p3 : pyFloat ['3'] = 3 := by
    rw [pyFloat_digits ['3'] 3 rfl rfl]
    norm_num
  have p4 : pyFloat ['4'] = 4 := by
    rw [pyFloat_digits ['4'] 4 rfl rfl]
    norm_num
  refine ⟨?_, ?_, ?_, ?_⟩
  · rw [h1.1]
    simp only [e1]
    rw [p7]
  · rw [h1.2.1]
    simp only [e2, e3]
    rw [p3]
  · rw [h2.2.1]
    simp only [e4]
    rw [p9]
  · rw [h2.1]
    simp only [e5, e6]
    rw [p4]

end ArkAgent
